import Mathlib

/-!
Verification of the formbricks survey service layer: the getSyncSurveys
eligibility pipeline (display-frequency filter, recontact-window filter,
legacy attribute-filter evaluation), updateSurvey status normalization,
the cache date-field round trip of the survey readers, the web-survey
type migration utility, createSurvey, and canUserModifyResponseNote.
Machine timestamps are modelled as integers (milliseconds); JS truthiness
of string values is modelled explicitly.
-/

namespace Formbricks

/-- JS truthiness of an optional string value: undefined/null and the empty
string are falsy, every other string is truthy. -/
def truthyStr : Option String → Bool
  | none => false
  | some s => s != ""

/-- The fields of a survey (TSurvey) that the getSyncSurveys pipeline reads:
id, lifecycle status, type, display policy and per-survey recontact window. -/
structure TSurvey where
  id : String
  status : String
  type : String
  displayOption : String
  recontactDays : Option Nat
  deriving DecidableEq, Repr

/-- One display record of a person: which survey was shown, the optional
response reference, and the creation timestamp in milliseconds. -/
structure TDisplay where
  surveyId : String
  responseId : Option String
  createdAt : Int
  deriving DecidableEq, Repr

/-- The first filter stage of getSyncSurveys (part_000 line 868): keep the
surveys that are running (status inProgress) and of type web. -/
def filterRunningWebSurveys (surveys : List TSurvey) : List TSurvey :=
  surveys.filter (fun survey => survey.status == "inProgress" && survey.type == "web")

/-- The displayOption filter predicate of getSyncSurveys (part_000 lines
878-891). respondMultiple passes; displayOnce passes when no display of this
survey exists; displayMultiple passes when no display of this survey with a
non-null responseId exists; any other value throws (Except.error). -/
def displayOptionCriteria (survey : TSurvey) (displays : List TDisplay) :
    Except String Bool :=
  if survey.displayOption == "respondMultiple" then
    .ok true
  else if survey.displayOption == "displayOnce" then
    .ok ((displays.filter (fun display => display.surveyId == survey.id)).length == 0)
  else if survey.displayOption == "displayMultiple" then
    .ok ((displays.filter (fun display =>
      display.surveyId == survey.id && display.responseId.isSome)).length == 0)
  else
    .error "Invalid displayOption"

/-- Modelled from the spec: diffInDays of utils/datetime (not under src) is
the number of whole days between two timestamps in milliseconds. -/
def diffInDays (date1 date2 : Int) : Nat :=
  (date1 - date2).natAbs / 86400000

/-- The recontactDays filter predicate of getSyncSurveys (part_000 lines
896-910). displays is the person's display history, most recent first, as
returned by getDisplaysByPersonId; displays.head? is the latest display
overall, and the head of the history filtered to this survey is the latest
display of this survey. -/
def recontactDaysCriteria (survey : TSurvey) (productRecontactDays : Option Nat)
    (displays : List TDisplay) (now : Int) : Bool :=
  match displays.head? with
  | none => true
  | some latestDisplay =>
    match survey.recontactDays with
    | some surveyRecontactDays =>
      match (displays.filter (fun display => display.surveyId == survey.id)).head? with
      | none => true
      | some lastDisplaySurvey =>
        decide (diffInDays now lastDisplaySurvey.createdAt ≥ surveyRecontactDays)
    | none =>
      match productRecontactDays with
      | some productDays => decide (diffInDays now latestDisplay.createdAt ≥ productDays)
      | none => true

/-- The first display with maximal createdAt in a list (specification-side
notion of the most recent display). -/
def maxByCreatedAt (displays : List TDisplay) : Option TDisplay :=
  displays.foldl
    (fun acc display =>
      match acc with
      | none => some display
      | some best => if display.createdAt > best.createdAt then some display else acc)
    none

/-- The most recent display of a given survey in a display history. -/
def mostRecentDisplayFor (displays : List TDisplay) (surveyId : String) : Option TDisplay :=
  maxByCreatedAt (displays.filter (fun display => display.surveyId == surveyId))

/-- One flat attribute filter of the legacy segment evaluation path. -/
structure TAttributeFilter where
  attributeClassName : String
  operator : String
  value : String
  deriving DecidableEq, Repr

/-- Lookup of person.attributes[name] in the person's attribute mapping. -/
def personAttribute (attributes : List (String × String)) (name : String) :
    Option String :=
  (attributes.find? (fun kv => kv.1 == name)).map (fun kv => kv.2)

/-- One attribute-filter check of the legacy path of getSyncSurveys
(part_000 lines 952-966): a falsy attribute value fails the filter; equals
and notEquals compare the value; any other operator fails the filter. -/
def meetsAttributeFilter (attributes : List (String × String))
    (attributeFilter : TAttributeFilter) : Bool :=
  let personAttributeValue := personAttribute attributes attributeFilter.attributeClassName
  if !(truthyStr personAttributeValue) then
    false
  else if attributeFilter.operator == "equals" then
    personAttributeValue == some attributeFilter.value
  else if attributeFilter.operator == "notEquals" then
    personAttributeValue != some attributeFilter.value
  else
    false

/-- The legacy (no protocol version) segment evaluation of one survey in
getSyncSurveys (part_000 lines 938-968), given the result of
transformSegmentFiltersToAttributeFilters: a null transform result excludes
the survey (returns none, no throw); an empty filter list keeps it; otherwise
the survey is kept exactly when every attribute filter is met. -/
def legacySegmentSurvey (attributes : List (String × String))
    (attributeFilters : Option (List TAttributeFilter)) (survey : TSurvey) :
    Option TSurvey :=
  match attributeFilters with
  | none => none
  | some filters =>
    if filters.length == 0 then some survey
    else if filters.all (fun f => meetsAttributeFilter attributes f) then some survey
    else none

/-- The status normalization of updateSurvey (part_000 lines 569-580):
scheduled with a null runOnDate becomes inProgress; completed, paused or
inProgress with a future runOnDate becomes scheduled. -/
def normalizeScheduledStatus (status : String) (runOnDate : Option Int) (now : Int) :
    String :=
  let status1 := if status == "scheduled" && runOnDate.isNone then "inProgress" else status
  if (status1 == "completed" || status1 == "paused" || status1 == "inProgress")
      && (match runOnDate with
          | some d => decide (d > now)
          | none => false) then
    "scheduled"
  else
    status1

/-- A date/time-valued field as it travels through the derived-result cache:
either a typed Date value or its serialized string form (both carry the
underlying timestamp). -/
inductive DateVal where
  | asDate : Int → DateVal
  | asString : Int → DateVal
  deriving DecidableEq, Repr

/-- The JSON serialization round trip of unstable_cache: a Date value is
degraded to its string form; a string stays a string. -/
def jsonRoundTripDate : DateVal → DateVal
  | .asDate t => .asString t
  | .asString t => .asString t

/-- Modelled from the spec: the date restoration of formatSurveyDateFields
(survey/util, not under src) parses a stringified date field back into a
typed Date value. -/
def formatDateVal : DateVal → DateVal
  | .asDate t => .asDate t
  | .asString t => .asDate t

/-- The date/time-typed fields of a survey value as stored in the cache. -/
structure CachedSurvey where
  id : String
  createdAt : DateVal
  updatedAt : DateVal
  deriving DecidableEq, Repr

/-- Reading a survey value back out of the unstable_cache entry degrades its
date fields to strings. -/
def cacheRoundTripSurvey (survey : CachedSurvey) : CachedSurvey :=
  { survey with
    createdAt := jsonRoundTripDate survey.createdAt
    updatedAt := jsonRoundTripDate survey.updatedAt }

/-- Modelled from the spec: formatSurveyDateFields applied to a whole survey
value restores all of its date/time-typed fields. -/
def formatSurveyDateFields (survey : CachedSurvey) : CachedSurvey :=
  { survey with
    createdAt := formatDateVal survey.createdAt
    updatedAt := formatDateVal survey.updatedAt }

/-- The return path of getSurvey (part_000 lines 316-319): the cached value
is deserialized with formatSurveyDateFields before being returned. -/
def getSurveyReturn (cached : Option CachedSurvey) : Option CachedSurvey :=
  match cached.map cacheRoundTripSurvey with
  | none => none
  | some survey => some (formatSurveyDateFields survey)

/-- The return path of getSurveys (part_000 line 434). -/
def getSurveysReturn (cached : List CachedSurvey) : List CachedSurvey :=
  (cached.map cacheRoundTripSurvey).map (fun survey => formatSurveyDateFields survey)

/-- The return path of getSurveysByActionClassId (part_000 line 369). -/
def getSurveysByActionClassIdReturn (cached : List CachedSurvey) : List CachedSurvey :=
  (cached.map cacheRoundTripSurvey).map (fun survey => formatSurveyDateFields survey)

/-- The return path of getSyncSurveys (part_000 line 1008). -/
def getSyncSurveysReturn (cached : List CachedSurvey) : List CachedSurvey :=
  (cached.map cacheRoundTripSurvey).map (fun survey => formatSurveyDateFields survey)

/-- The return path of getSurveysBySegmentId (part_000 line 1136): the cached
value is returned directly, without formatSurveyDateFields. -/
def getSurveysBySegmentIdReturn (cached : List CachedSurvey) : List CachedSurvey :=
  cached.map cacheRoundTripSurvey

/-- The survey-creation input fields that createSurvey branches on. -/
structure TSurveyInput where
  triggers : Option (List String)
  inlineTriggers : Option String
  type : String
  deriving DecidableEq, Repr

/-- The survey record handed back by the store after creation. -/
structure PrismaCreatedSurvey where
  id : String
  environmentId : String
  triggerNames : List String
  segmentId : Option String
  deriving DecidableEq, Repr

/-- The survey value createSurvey returns to its caller. -/
structure TransformedSurvey where
  id : String
  triggers : List String
  segment : Option String
  deriving DecidableEq, Repr

/-- createSurvey (part_000 lines 655-718): rejects a body with both triggers
and inlineTriggers, and returns the created survey with its triggers mapped
to action-class names and its segment field hard-coded to null. -/
def createSurvey (surveyBody : TSurveyInput) (created : PrismaCreatedSurvey) :
    Except String TransformedSurvey :=
  if surveyBody.triggers.isSome && surveyBody.inlineTriggers.isSome then
    .error "Survey body cannot have both triggers and inlineTriggers"
  else
    .ok { id := created.id, triggers := created.triggerNames, segment := none }

/-- A response note with its id and its author's user id. -/
structure TResponseNote where
  id : String
  userId : String
  deriving DecidableEq, Repr

/-- Modelled from the spec: getResponseNote (responseNote/service, not under
src) looks the note up by id in the note store and returns it, or null when
absent. -/
def getResponseNote (notes : List TResponseNote) (responseNoteId : String) :
    Option TResponseNote :=
  notes.find? (fun note => note.id == responseNoteId)

/-- canUserModifyResponseNote (responseNote/auth.ts lines 10-28): falsy ids
give false; a missing note gives false; otherwise the note's author user id
is compared with the given user id. -/
def canUserModifyResponseNote (notes : List TResponseNote)
    (userId responseNoteId : String) : Bool :=
  if userId == "" || responseNoteId == "" then false
  else
    match getResponseNote notes responseNoteId with
    | none => false
    | some responseNote => responseNote.userId == userId

/-- A survey row as the migration utility sees it: id, type and the foreign
key to its connected segment. -/
structure MSurvey where
  id : String
  type : String
  segmentId : Option String
  deriving DecidableEq, Repr

/-- A segment row: id, title and the isPrivate flag. -/
structure MSegment where
  id : String
  title : String
  isPrivate : Bool
  deriving DecidableEq, Repr

/-- A response row: which survey it answers, the optional person reference
and the creation timestamp. -/
structure MResponse where
  surveyId : String
  personId : Option String
  createdAt : Int
  deriving DecidableEq, Repr

/-- The store state the migration transaction operates on. -/
structure MState where
  surveys : List MSurvey
  segments : List MSegment
  responses : List MResponse
  deriving DecidableEq, Repr

/-- Segment lookup by id. -/
def findSegment (segments : List MSegment) (segmentId : String) : Option MSegment :=
  segments.find? (fun seg => seg.id == segmentId)

/-- The latest response of a survey: response.findFirst ordered by createdAt
descending, the first row with maximal createdAt. -/
def latestResponseFor (responses : List MResponse) (surveyId : String) :
    Option MResponse :=
  (responses.filter (fun response => response.surveyId == surveyId)).foldl
    (fun acc response =>
      match acc with
      | none => some response
      | some best => if response.createdAt > best.createdAt then some response else acc)
    none

/-- survey.update setting the type of the survey with the given id. -/
def updateSurveyType (surveys : List MSurvey) (surveyId ty : String) : List MSurvey :=
  surveys.map (fun survey =>
    if survey.id == surveyId then { survey with type := ty } else survey)

/-- survey.update with segment disconnect: clears the segment foreign key of
the survey with the given id. -/
def disconnectSegment (surveys : List MSurvey) (surveyId : String) : List MSurvey :=
  surveys.map (fun survey =>
    if survey.id == surveyId then { survey with segmentId := none } else survey)

/-- segment.delete: removes the segment with the given id, failing (as the
store does) when no such row exists. -/
def deleteSegment (segments : List MSegment) (segmentId : String) :
    Except String (List MSegment) :=
  if segments.any (fun seg => seg.id == segmentId) then
    .ok (segments.filter (fun seg => seg.id != segmentId))
  else
    .error "Record to delete does not exist"

/-- segment.deleteMany removing every private segment whose title is the
given survey id. -/
def deleteManyPrivateTitled (segments : List MSegment) (title : String) :
    List MSegment :=
  segments.filter (fun seg => !(seg.title == title && seg.isPrivate))

/-- One loop iteration of the migration (part_000 lines 20-72) over a
snapshotted web survey and its snapshotted segment: a truthy person
reference on the latest response turns the survey into an app survey;
otherwise it becomes a website survey, its private segment is deleted (a
shared one is disconnected), and every private segment titled with the
survey id is removed. -/
def processWebSurvey (st : MState) (webSurvey : MSurvey)
    (snapSegment : Option MSegment) : Except String MState :=
  let latestResponse := latestResponseFor st.responses webSurvey.id
  if truthyStr (latestResponse.bind (fun response => response.personId)) then
    .ok { st with surveys := updateSurveyType st.surveys webSurvey.id "app" }
  else
    let st1 := { st with surveys := updateSurveyType st.surveys webSurvey.id "website" }
    (match snapSegment with
      | none => Except.ok st1
      | some seg =>
        if seg.isPrivate then
          (deleteSegment st1.segments seg.id).map
            (fun segments => { st1 with segments := segments })
        else
          Except.ok { st1 with surveys := disconnectSegment st1.surveys webSurvey.id }
      ).map
      (fun (st2 : MState) =>
        { st2 with segments := deleteManyPrivateTitled st2.segments webSurvey.id })

/-- The snapshot taken before the loop: all surveys of type web, each paired
with its included segment. -/
def webSurveySnapshot (s : MState) : List (MSurvey × Option MSegment) :=
  (s.surveys.filter (fun survey => survey.type == "web")).map
    (fun survey => (survey, survey.segmentId.bind (fun sid => findSegment s.segments sid)))

/-- The migration transaction (part_000 lines 5-78): iterate the snapshot,
threading the store state; any store failure aborts the transaction. -/
def migrateWebSurveys (s : MState) : Except String MState :=
  (webSurveySnapshot s).foldlM (fun st entry => processWebSurvey st entry.1 entry.2) s

/-- An inProgress survey of type link, used to refute claim C3 as stated. -/
def linkSurveyEx : TSurvey :=
  { id := "s1", status := "inProgress", type := "link"
    displayOption := "respondMultiple", recontactDays := none }

/-- Claim C3 counterexample: the first stage of getSyncSurveys does not keep
every survey whose status is inProgress — a survey with status inProgress but
type link is in the input list and is removed by the stage. -/
theorem claim_c3_counterexample :
    linkSurveyEx.status = "inProgress" ∧ linkSurveyEx ∈ [linkSurveyEx]
      ∧ linkSurveyEx ∉ filterRunningWebSurveys [linkSurveyEx] := by
  refine ⟨rfl, List.mem_singleton.mpr rfl, ?_⟩
  decide

/-- Claim C3 (amended): the first stage of getSyncSurveys keeps exactly the
surveys whose status is inProgress and whose type is web. -/
theorem claim_c3_amended (surveys : List TSurvey) (survey : TSurvey) :
    survey ∈ filterRunningWebSurveys surveys ↔
      survey ∈ surveys ∧ survey.status = "inProgress" ∧ survey.type = "web" := by
  simp [filterRunningWebSurveys, List.mem_filter, Bool.and_eq_true, beq_iff_eq,
    and_assoc]

/-- Claim C4: in the legacy path of getSyncSurveys, a null result of
transformSegmentFiltersToAttributeFilters excludes the survey (returns none,
no throw); an attribute filter with an operator other than equals or
notEquals evaluates to false; and any filter evaluating to false excludes the
survey. The evaluation functions are total, so no error can propagate. -/
theorem claim_c4_legacy_errors_contained (attributes : List (String × String))
    (survey : TSurvey) :
    legacySegmentSurvey attributes none survey = none
    ∧ (∀ f : TAttributeFilter, f.operator ≠ "equals" → f.operator ≠ "notEquals" →
        meetsAttributeFilter attributes f = false)
    ∧ (∀ filters : List TAttributeFilter,
        (∃ f ∈ filters, meetsAttributeFilter attributes f = false) →
        legacySegmentSurvey attributes (some filters) survey = none) := by
  refine ⟨rfl, ?_, ?_⟩
  · intro f h1 h2
    unfold meetsAttributeFilter
    by_cases htr : truthyStr (personAttribute attributes f.attributeClassName)
    · simp [htr, h1, h2]
    · simp [htr]
  · intro filters ⟨f, hf, hfalse⟩
    unfold legacySegmentSurvey
    have hne : filters.length ≠ 0 := by
      intro h0
      rw [List.length_eq_zero] at h0
      exact absurd (h0 ▸ hf) (List.not_mem_nil f)
    have hall : filters.all (fun f => meetsAttributeFilter attributes f) = false := by
      rw [List.all_eq_false]
      exact ⟨f, hf, by simp [hfalse]⟩
    simp [hne, hall]

/-- Claim C4 witness: with attributes plan=pro, a filter with the operator
contains evaluates to false and a survey carrying only that filter is
excluded, while a null transform result also excludes it. -/
theorem claim_c4_witness :
    meetsAttributeFilter [("plan", "pro")]
      { attributeClassName := "plan", operator := "contains", value := "pro" } = false
    ∧ legacySegmentSurvey [("plan", "pro")]
        (some [{ attributeClassName := "plan", operator := "contains", value := "pro" }])
        linkSurveyEx = none := by
  have h := claim_c4_legacy_errors_contained [("plan", "pro")] linkSurveyEx
  have hop := h.2.1 { attributeClassName := "plan", operator := "contains", value := "pro" }
    (by decide) (by decide)
  exact ⟨hop, h.2.2 _ ⟨_, List.mem_singleton.mpr rfl, hop⟩⟩

/-- Claim C6: updateSurvey status normalization: scheduled with a null
runOnDate is stored as inProgress; completed, paused or inProgress with a
strictly future runOnDate is stored as scheduled; and the stored status is
never scheduled with an absent runOnDate. -/
theorem claim_c6_normalizeScheduledStatus (status : String) (runOnDate : Option Int)
    (now : Int) :
    (status = "scheduled" → runOnDate = none →
      normalizeScheduledStatus status runOnDate now = "inProgress")
    ∧ (∀ d : Int, (status = "completed" ∨ status = "paused" ∨ status = "inProgress") →
        runOnDate = some d → d > now →
        normalizeScheduledStatus status runOnDate now = "scheduled")
    ∧ (normalizeScheduledStatus status runOnDate now = "scheduled" →
        runOnDate ≠ none) := by
  refine ⟨?_, ?_, ?_⟩
  · intro hs hr
    subst hs; subst hr
    simp [normalizeScheduledStatus]
  · intro d hs hr hd
    subst hr
    rcases hs with h | h | h <;> subst h <;> simp [normalizeScheduledStatus, hd]
  · intro hres hnone
    subst hnone
    by_cases hs : status = "scheduled"
    · subst hs
      simp [normalizeScheduledStatus] at hres
    · unfold normalizeScheduledStatus at hres
      simp only [Option.isNone_none, Bool.and_true] at hres
      rw [if_neg (by simp [hs])] at hres
      simp at hres
      rw [if_neg hs] at hres
      exact hs hres

/-- Claim C6 witness: a scheduled update with a null runOnDate is stored as
inProgress, a paused update with a future runOnDate is stored as
scheduled. -/
theorem claim_c6_witness :
    normalizeScheduledStatus "scheduled" none 0 = "inProgress"
    ∧ normalizeScheduledStatus "paused" (some 10) 0 = "scheduled" := by
  constructor
  · exact (claim_c6_normalizeScheduledStatus "scheduled" none 0).1 rfl rfl
  · exact (claim_c6_normalizeScheduledStatus "paused" (some 10) 0).2.1 10
      (Or.inr (Or.inl rfl)) rfl (by decide)

/-- Claim C8: in the legacy attribute-filter evaluation, an attribute that is
absent from the person's attribute mapping, or falsy on it, makes the filter
evaluate to false for every operator — notEquals included. -/
theorem claim_c8_absent_attribute (attributes : List (String × String))
    (f : TAttributeFilter)
    (habsent : truthyStr (personAttribute attributes f.attributeClassName) = false) :
    meetsAttributeFilter attributes f = false := by
  unfold meetsAttributeFilter
  simp [habsent]

/-- Claim C8 witness: with an empty attribute mapping, a notEquals filter on
the attribute plan evaluates to false. -/
theorem claim_c8_witness :
    truthyStr (personAttribute []
      (TAttributeFilter.attributeClassName
        { attributeClassName := "plan", operator := "notEquals", value := "pro" })) = false
    ∧ meetsAttributeFilter []
        { attributeClassName := "plan", operator := "notEquals", value := "pro" } = false := by
  exact ⟨rfl, claim_c8_absent_attribute []
    { attributeClassName := "plan", operator := "notEquals", value := "pro" } rfl⟩

/-- Claim C9: every successful createSurvey call returns a survey whose
segment field is null, whatever the input body and created row. -/
theorem claim_c9_createSurvey_segment_null (surveyBody : TSurveyInput)
    (created : PrismaCreatedSurvey) (result : TransformedSurvey)
    (hok : createSurvey surveyBody created = .ok result) :
    result.segment = none := by
  unfold createSurvey at hok
  by_cases hb : (surveyBody.triggers.isSome && surveyBody.inlineTriggers.isSome) = true
  · rw [if_pos hb] at hok
    exact absurd hok (by simp)
  · rw [if_neg hb] at hok
    cases hok
    rfl

/-- Claim C9 witness: a concrete successful creation returns segment null. -/
theorem claim_c9_witness :
    TransformedSurvey.segment { id := "s1", triggers := [], segment := none } = none := by
  exact claim_c9_createSurvey_segment_null
    { triggers := none, inlineTriggers := none, type := "link" }
    { id := "s1", environmentId := "e1", triggerNames := [], segmentId := some "g1" }
    { id := "s1", triggers := [], segment := none } rfl

/-- Claim C10: with well-formed (non-empty) ids and distinct note ids,
canUserModifyResponseNote returns true exactly when a note with the given id
exists and its author's user id is the given user id; a missing note yields
false, not an error (the function is total). -/
theorem claim_c10_canUserModifyResponseNote (notes : List TResponseNote)
    (userId responseNoteId : String)
    (hnodup : (notes.map TResponseNote.id).Nodup)
    (huser : userId ≠ "") (hnote : responseNoteId ≠ "") :
    (canUserModifyResponseNote notes userId responseNoteId = true ↔
      ∃ note ∈ notes, note.id = responseNoteId ∧ note.userId = userId)
    ∧ (getResponseNote notes responseNoteId = none →
        canUserModifyResponseNote notes userId responseNoteId = false) := by
  have hguard : (userId == "" || responseNoteId == "") = false := by
    simp [huser, hnote]
  constructor
  · constructor
    · intro htrue
      unfold canUserModifyResponseNote at htrue
      rw [hguard] at htrue
      simp only [Bool.false_eq_true, if_false] at htrue
      rcases hfind : getResponseNote notes responseNoteId with _ | note
      · rw [hfind] at htrue; exact absurd htrue (by simp)
      · rw [hfind] at htrue
        have hmem := List.mem_of_find?_eq_some hfind
        have hid : note.id = responseNoteId := by
          have := List.find?_some hfind
          simpa [beq_iff_eq] using this
        exact ⟨note, hmem, hid, by simpa [beq_iff_eq] using htrue⟩
    · intro ⟨note, hmem, hid, huid⟩
      unfold canUserModifyResponseNote
      rw [hguard]
      simp only [Bool.false_eq_true, if_false]
      have hfind : getResponseNote notes responseNoteId = some note := by
        unfold getResponseNote
        rcases hf : notes.find? (fun n => n.id == responseNoteId) with _ | found
        · exact absurd (List.find?_eq_none.mp hf note hmem) (by simp [hid])
        · have hfid : found.id = responseNoteId := by
            have := List.find?_some hf
            simpa [beq_iff_eq] using this
          have : found = note := by
            have hfmem := List.mem_of_find?_eq_some hf
            have : notes.map TResponseNote.id |>.Nodup := hnodup
            have hinj := List.inj_on_of_nodup_map this
            exact hinj hfmem hmem (by rw [hfid, hid])
          rw [this] at hf
          exact hf
      rw [hfind]
      simp [huid]
  · intro hnone
    unfold canUserModifyResponseNote
    rw [hguard]
    simp [hnone]

/-- Claim C10 witness: a store with one note n1 authored by u1: u1 may modify
it; and with the note store empty the check returns false. -/
theorem claim_c10_witness :
    canUserModifyResponseNote [{ id := "n1", userId := "u1" }] "u1" "n1" = true
    ∧ canUserModifyResponseNote [] "u1" "n1" = false := by
  constructor
  · exact (claim_c10_canUserModifyResponseNote [{ id := "n1", userId := "u1" }]
      "u1" "n1" (by simp) (by decide) (by decide)).1.mpr
      ⟨{ id := "n1", userId := "u1" }, List.mem_singleton.mpr rfl, rfl, rfl⟩
  · exact (claim_c10_canUserModifyResponseNote [] "u1" "n1" (by simp)
      (by decide) (by decide)).2 rfl

/-- Claim C5 (code bug): four of the five cached survey readers restore
date-typed fields after the cache round trip, but getSurveysBySegmentId
returns the round-tripped value directly, so its callers observe date fields
degraded to strings. Evaluated at a concrete survey with typed dates. -/
theorem claim_c5_getSurveysBySegmentId_degrades_dates :
    getSurveysBySegmentIdReturn [{ id := "s1", createdAt := .asDate 5, updatedAt := .asDate 7 }]
      = [{ id := "s1", createdAt := .asString 5, updatedAt := .asString 7 }]
    ∧ getSurveyReturn (some { id := "s1", createdAt := .asDate 5, updatedAt := .asDate 7 })
      = some { id := "s1", createdAt := .asDate 5, updatedAt := .asDate 7 }
    ∧ getSurveysReturn [{ id := "s1", createdAt := .asDate 5, updatedAt := .asDate 7 }]
      = [{ id := "s1", createdAt := .asDate 5, updatedAt := .asDate 7 }]
    ∧ getSurveysByActionClassIdReturn
        [{ id := "s1", createdAt := .asDate 5, updatedAt := .asDate 7 }]
      = [{ id := "s1", createdAt := .asDate 5, updatedAt := .asDate 7 }]
    ∧ getSyncSurveysReturn [{ id := "s1", createdAt := .asDate 5, updatedAt := .asDate 7 }]
      = [{ id := "s1", createdAt := .asDate 5, updatedAt := .asDate 7 }] := by
  exact ⟨rfl, rfl, rfl, rfl, rfl⟩

/-- Claim C1: the display-frequency filter of getSyncSurveys: respondMultiple
always passes; displayOnce passes exactly when the history has no display of
this survey; displayMultiple passes exactly when the history has no display
of this survey with a non-null response reference; any other displayOption
value raises an error instead of silently excluding the survey. -/
theorem claim_c1_displayOptionCriteria (survey : TSurvey) (displays : List TDisplay) :
    (survey.displayOption = "respondMultiple" →
      displayOptionCriteria survey displays = .ok true)
    ∧ (survey.displayOption = "displayOnce" →
      (displayOptionCriteria survey displays = .ok true ↔
        ∀ display ∈ displays, display.surveyId ≠ survey.id)
      ∧ ∃ b, displayOptionCriteria survey displays = .ok b)
    ∧ (survey.displayOption = "displayMultiple" →
      (displayOptionCriteria survey displays = .ok true ↔
        ∀ display ∈ displays, display.surveyId = survey.id → display.responseId = none)
      ∧ ∃ b, displayOptionCriteria survey displays = .ok b)
    ∧ (survey.displayOption ≠ "respondMultiple" →
        survey.displayOption ≠ "displayOnce" →
        survey.displayOption ≠ "displayMultiple" →
      displayOptionCriteria survey displays = .error "Invalid displayOption") := by
  refine ⟨?_, ?_, ?_, ?_⟩
  · intro h
    simp [displayOptionCriteria, h]
  · intro h
    refine ⟨?_,
      ⟨(displays.filter (fun display => display.surveyId == survey.id)).length == 0,
        by simp [displayOptionCriteria, h]⟩⟩
    simp only [displayOptionCriteria, h]
    simp [List.length_eq_zero, List.filter_eq_nil_iff, beq_iff_eq]
  · intro h
    refine ⟨?_,
      ⟨(displays.filter (fun display =>
          display.surveyId == survey.id && display.responseId.isSome)).length == 0,
        by simp [displayOptionCriteria, h]⟩⟩
    simp only [displayOptionCriteria, h]
    simp only [show ("displayMultiple" == "respondMultiple") = false from rfl,
      show ("displayMultiple" == "displayOnce") = false from rfl,
      show ("displayMultiple" == "displayMultiple") = true from rfl,
      Bool.false_eq_true, if_false, if_true]
    constructor
    · intro htrue display hmem hid
      have hlen : (displays.filter (fun display =>
          display.surveyId == survey.id && display.responseId.isSome)).length = 0 := by
        have := (Except.ok.injEq _ _ ).mp htrue  -- placeholder
        simpa [beq_iff_eq] using htrue
      rw [List.length_eq_zero, List.filter_eq_nil_iff] at hlen
      have := hlen display hmem
      rcases hresp : display.responseId with _ | r
      · rfl
      · exact absurd (by simp [hid, hresp]) this
    · intro hnone
      have hlen : (displays.filter (fun display =>
          display.surveyId == survey.id && display.responseId.isSome)) = [] := by
        rw [List.filter_eq_nil_iff]
        intro display hmem
        by_cases hid : display.surveyId = survey.id
        · simp [hid, hnone display hmem hid]
        · simp [hid]
      simp [hlen]
  · intro h1 h2 h3
    simp [displayOptionCriteria, h1, h2, h3]

/-- Claim C1 witness: a displayOnce survey with one prior display of it is
excluded (filter false), and with an unrelated display it passes. -/
theorem claim_c1_witness :
    displayOptionCriteria
      { id := "s1", status := "inProgress", type := "web"
        displayOption := "displayOnce", recontactDays := none }
      [{ surveyId := "s2", responseId := none, createdAt := 0 }] = .ok true := by
  exact ((claim_c1_displayOptionCriteria
    { id := "s1", status := "inProgress", type := "web"
      displayOption := "displayOnce", recontactDays := none }
    [{ surveyId := "s2", responseId := none, createdAt := 0 }]).2.1 rfl).1.mpr
    (by decide)

/-- Folding the keep-the-later-display step over displays that are all no
later than the accumulator leaves the accumulator unchanged. -/
theorem foldl_keepLatest_fixed (best : TDisplay) (l : List TDisplay)
    (h : ∀ d ∈ l, d.createdAt ≤ best.createdAt) :
    l.foldl
      (fun acc display =>
        match acc with
        | none => some display
        | some b => if display.createdAt > b.createdAt then some display else acc)
      (some best) = some best := by
  induction l with
  | nil => rfl
  | cons a t ih =>
    simp only [List.foldl_cons]
    rw [if_neg (not_lt.mpr (h a (List.mem_cons_self a t)))]
    exact ih (fun d hd => h d (List.mem_cons_of_mem a hd))

/-- On a most-recent-first display history, the first display with maximal
createdAt is the head of the list. -/
theorem maxByCreatedAt_of_sorted (displays : List TDisplay)
    (hsorted : displays.Pairwise (fun a b => b.createdAt ≤ a.createdAt)) :
    maxByCreatedAt displays = displays.head? := by
  cases displays with
  | nil => rfl
  | cons a t =>
    unfold maxByCreatedAt
    simp only [List.foldl_cons, List.head?_cons]
    exact foldl_keepLatest_fixed a t (fun d hd => (List.pairwise_cons.mp hsorted).1 d hd)

/-- Claim C2: the recontact-window filter of getSyncSurveys, for a display
history sorted most recent first: with no display at all it passes; with the
survey recontactDays set it passes exactly when there is no display of this
survey or the most recent such display is at least that many days old; else
with the product recontactDays set it passes exactly when the most recent
display overall is at least that many days old; else it passes. -/
theorem claim_c2_recontactDaysCriteria (survey : TSurvey)
    (productRecontactDays : Option Nat) (displays : List TDisplay) (now : Int)
    (hsorted : displays.Pairwise (fun a b => b.createdAt ≤ a.createdAt)) :
    (displays = [] →
      recontactDaysCriteria survey productRecontactDays displays now = true)
    ∧ (∀ rd, survey.recontactDays = some rd →
        (recontactDaysCriteria survey productRecontactDays displays now = true ↔
          mostRecentDisplayFor displays survey.id = none ∨
          ∃ display, mostRecentDisplayFor displays survey.id = some display ∧
            diffInDays now display.createdAt ≥ rd))
    ∧ (displays ≠ [] → survey.recontactDays = none →
        ∀ productDays, productRecontactDays = some productDays →
        (recontactDaysCriteria survey productRecontactDays displays now = true ↔
          ∃ display, maxByCreatedAt displays = some display ∧
            diffInDays now display.createdAt ≥ productDays))
    ∧ (survey.recontactDays = none → productRecontactDays = none →
        recontactDaysCriteria survey productRecontactDays displays now = true) := by
  have hfsorted : (displays.filter
      (fun display => display.surveyId == survey.id)).Pairwise
      (fun a b => b.createdAt ≤ a.createdAt) :=
    hsorted.sublist (List.filter_sublist displays)
  have hmf : mostRecentDisplayFor displays survey.id
      = (displays.filter (fun display => display.surveyId == survey.id)).head? :=
    maxByCreatedAt_of_sorted _ hfsorted
  refine ⟨?_, ?_, ?_, ?_⟩
  · intro hnil
    subst hnil
    rfl
  · intro rd hrd
    rcases hhead : displays.head? with _ | latest
    · rw [List.head?_eq_none_iff] at hhead
      subst hhead
      have hcrit : recontactDaysCriteria survey productRecontactDays [] now = true := rfl
      have hnone : mostRecentDisplayFor [] survey.id = none := rfl
      simp [hcrit, hnone]
    · rcases hfh : (displays.filter
          (fun display => display.surveyId == survey.id)).head? with _ | last
      · have hcrit : recontactDaysCriteria survey productRecontactDays displays now = true := by
          unfold recontactDaysCriteria
          simp only [hhead, hrd, hfh]
        rw [hmf, hfh]
        simp [hcrit]
      · have hcrit : recontactDaysCriteria survey productRecontactDays displays now
            = decide (diffInDays now last.createdAt ≥ rd) := by
          unfold recontactDaysCriteria
          simp only [hhead, hrd, hfh]
        rw [hmf, hfh, hcrit]
        simp only [decide_eq_true_eq]
        constructor
        · intro hge
          exact Or.inr ⟨last, rfl, hge⟩
        · intro h
          rcases h with hnone | ⟨display, hsome, hge⟩
          · exact absurd hnone (by simp)
          · cases hsome
            exact hge
  · intro hne hnone productDays hprod
    rcases hhead : displays.head? with _ | latest
    · rw [List.head?_eq_none_iff] at hhead
      exact absurd hhead hne
    · have hcrit : recontactDaysCriteria survey productRecontactDays displays now
          = decide (diffInDays now latest.createdAt ≥ productDays) := by
        unfold recontactDaysCriteria
        simp only [hhead, hnone, hprod]
      have hmax : maxByCreatedAt displays = some latest := by
        rw [maxByCreatedAt_of_sorted displays hsorted, hhead]
      rw [hcrit, hmax]
      simp only [decide_eq_true_eq]
      constructor
      · intro hge
        exact ⟨latest, rfl, hge⟩
      · intro ⟨display, hsome, hge⟩
        cases hsome
        exact hge
  · intro h1 h2
    unfold recontactDaysCriteria
    rcases displays.head? with _ | latest
    · rfl
    · simp only [h1, h2]

/-- Claim C2 witness: a survey with recontactDays 7 whose only display of it
is 10 days old passes the recontact filter. -/
theorem claim_c2_witness :
    recontactDaysCriteria
      { id := "s1", status := "inProgress", type := "web"
        displayOption := "respondMultiple", recontactDays := some 7 }
      none
      [{ surveyId := "s1", responseId := none, createdAt := 0 }]
      864000000 = true := by
  exact ((claim_c2_recontactDaysCriteria
    { id := "s1", status := "inProgress", type := "web"
      displayOption := "respondMultiple", recontactDays := some 7 }
    none
    [{ surveyId := "s1", responseId := none, createdAt := 0 }]
    864000000 (by simp)).2.1 7 rfl).mpr
    (Or.inr ⟨{ surveyId := "s1", responseId := none, createdAt := 0 },
      by decide, by decide⟩)

/-- Lookup by id commutes with an id-preserving map over the survey list. -/
theorem find?_map_id_preserved (f : MSurvey → MSurvey) (hf : ∀ sv, (f sv).id = sv.id)
    (l : List MSurvey) (tid : String) :
    (l.map f).find? (fun sv => sv.id == tid) = (l.find? (fun sv => sv.id == tid)).map f := by
  induction l with
  | nil => rfl
  | cons a t ih =>
    by_cases hpa : (a.id == tid) = true
    · rw [List.map_cons,
        @List.find?_cons_of_pos _ (fun sv => sv.id == tid) (f a) (t.map f)
          (by show ((f a).id == tid) = true; rw [hf]; exact hpa),
        @List.find?_cons_of_pos _ (fun sv => sv.id == tid) a t hpa,
        Option.map_some']
    · rw [List.map_cons,
        @List.find?_cons_of_neg _ (fun sv => sv.id == tid) (f a) (t.map f)
          (by show ¬((f a).id == tid) = true; rw [hf]; exact hpa),
        @List.find?_cons_of_neg _ (fun sv => sv.id == tid) a t hpa]
      exact ih

/-- A survey found by id lookup carries that id. -/
theorem find?_id_eq (l : List MSurvey) (tid : String) (x : MSurvey)
    (h : l.find? (fun sv => sv.id == tid) = some x) : x.id = tid := by
  have := List.find?_some h
  simpa using this

/-- Id lookup after updateSurveyType maps the found survey through the update. -/
theorem updateSurveyType_id (l : List MSurvey) (uid ty tid : String) :
    (updateSurveyType l uid ty).find? (fun sv => sv.id == tid)
      = (l.find? (fun sv => sv.id == tid)).map
          (fun sv => if sv.id == uid then { sv with type := ty } else sv) := by
  unfold updateSurveyType
  exact find?_map_id_preserved _
    (fun sv => by by_cases h : (sv.id == uid) = true <;> simp [h]) l tid

/-- Id lookup after disconnectSegment maps the found survey through the update. -/
theorem disconnectSegment_id (l : List MSurvey) (uid tid : String) :
    (disconnectSegment l uid).find? (fun sv => sv.id == tid)
      = (l.find? (fun sv => sv.id == tid)).map
          (fun sv => if sv.id == uid then { sv with segmentId := none } else sv) := by
  unfold disconnectSegment
  exact find?_map_id_preserved _
    (fun sv => by by_cases h : (sv.id == uid) = true <;> simp [h]) l tid

/-- updateSurveyType leaves lookups of other survey ids unchanged. -/
theorem updateSurveyType_ne (l : List MSurvey) (uid ty tid : String) (hne : tid ≠ uid) :
    (updateSurveyType l uid ty).find? (fun sv => sv.id == tid)
      = l.find? (fun sv => sv.id == tid) := by
  rw [updateSurveyType_id]
  rcases hfind : l.find? (fun sv => sv.id == tid) with _ | x
  · rw [hfind]
    rfl
  · rw [hfind, Option.map_some', if_neg (by simp [find?_id_eq l tid x hfind, hne])]

/-- disconnectSegment leaves lookups of other survey ids unchanged. -/
theorem disconnectSegment_ne (l : List MSurvey) (uid tid : String) (hne : tid ≠ uid) :
    (disconnectSegment l uid).find? (fun sv => sv.id == tid)
      = l.find? (fun sv => sv.id == tid) := by
  rw [disconnectSegment_id]
  rcases hfind : l.find? (fun sv => sv.id == tid) with _ | x
  · rw [hfind]
    rfl
  · rw [hfind, Option.map_some', if_neg (by simp [find?_id_eq l tid x hfind, hne])]

/-- updateSurveyType rewrites the type of the survey found under the updated id. -/
theorem updateSurveyType_eq (l : List MSurvey) (uid ty : String) (x : MSurvey)
    (hfind : l.find? (fun sv => sv.id == uid) = some x) :
    (updateSurveyType l uid ty).find? (fun sv => sv.id == uid)
      = some { x with type := ty } := by
  rw [updateSurveyType_id, hfind, Option.map_some',
    if_pos (by simp [find?_id_eq l uid x hfind])]

/-- disconnectSegment clears the segment key of the survey found under the updated id. -/
theorem disconnectSegment_eq (l : List MSurvey) (uid : String) (x : MSurvey)
    (hfind : l.find? (fun sv => sv.id == uid) = some x) :
    (disconnectSegment l uid).find? (fun sv => sv.id == uid)
      = some { x with segmentId := none } := by
  rw [disconnectSegment_id, hfind, Option.map_some',
    if_pos (by simp [find?_id_eq l uid x hfind])]

/-- A successful deleteSegment leaves exactly the segments with a different id. -/
theorem deleteSegment_ok (segs segs2 : List MSegment) (sid : String)
    (h : deleteSegment segs sid = .ok segs2) :
    segs2 = segs.filter (fun z => z.id != sid) := by
  unfold deleteSegment at h
  by_cases hany : segs.any (fun z => z.id == sid) = true
  · rw [if_pos hany] at h
    injection h with h
    exact h.symm
  · rw [if_neg hany] at h
    exact absurd h (by simp)

/-- deleteManyPrivateTitled only removes segments, never adds any. -/
theorem deleteManyPrivateTitled_sub (segs : List MSegment) (title : String)
    (z : MSegment) (hz : z ∈ deleteManyPrivateTitled segs title) : z ∈ segs := by
  unfold deleteManyPrivateTitled at hz
  exact (List.mem_filter.mp hz).1

/-- After deleteManyPrivateTitled, a surviving segment with the given title is not private. -/
theorem deleteManyPrivateTitled_spec (segs : List MSegment) (title : String)
    (z : MSegment) (hz : z ∈ deleteManyPrivateTitled segs title)
    (htitle : z.title = title) : z.isPrivate = false := by
  unfold deleteManyPrivateTitled at hz
  have hp := (List.mem_filter.mp hz).2
  simp [htitle] at hp
  exact hp

/-- Exhaustive characterization of the successful outcomes of one migration
loop iteration: the app path, and the three website sub-paths (no snapshot
segment, private segment deleted, shared segment disconnected), each followed
by the deleteMany of private segments titled with the survey id. -/
theorem processWebSurvey_cases (st st2 : MState) (w : MSurvey) (g : Option MSegment)
    (h : processWebSurvey st w g = .ok st2) :
    (truthyStr ((latestResponseFor st.responses w.id).bind
        (fun response => response.personId)) = true
      ∧ st2 = { st with surveys := updateSurveyType st.surveys w.id "app" })
    ∨ (truthyStr ((latestResponseFor st.responses w.id).bind
        (fun response => response.personId)) = false
      ∧ ∃ surveys2 segs2,
          st2 = { surveys := surveys2, segments := deleteManyPrivateTitled segs2 w.id,
                  responses := st.responses }
          ∧ ((g = none ∧ surveys2 = updateSurveyType st.surveys w.id "website"
                ∧ segs2 = st.segments)
            ∨ (∃ seg, g = some seg ∧ seg.isPrivate = true
                ∧ surveys2 = updateSurveyType st.surveys w.id "website"
                ∧ segs2 = st.segments.filter (fun z => z.id != seg.id))
            ∨ (∃ seg, g = some seg ∧ seg.isPrivate = false
                ∧ surveys2 = disconnectSegment (updateSurveyType st.surveys w.id "website") w.id
                ∧ segs2 = st.segments)) ) := by
  unfold processWebSurvey at h
  by_cases hp : truthyStr ((latestResponseFor st.responses w.id).bind
      (fun response => response.personId)) = true
  · rw [if_pos hp] at h
    injection h with h
    exact Or.inl ⟨hp, h.symm⟩
  · rw [if_neg hp] at h
    refine Or.inr ⟨Bool.not_eq_true _ ▸ Bool.of_not_eq_true hp, ?_⟩
    rcases g with _ | seg
    · simp only [Except.map, Except.ok.injEq] at h
      exact ⟨updateSurveyType st.surveys w.id "website", st.segments, h.symm,
        Or.inl ⟨rfl, rfl, rfl⟩⟩
    · by_cases hpriv : seg.isPrivate = true
      · simp only [] at h
        rw [if_pos hpriv] at h
        rcases hd : deleteSegment st.segments seg.id with e | segs2
        · rw [hd] at h
          simp [Except.map] at h
        · rw [hd] at h
          simp only [Except.map, Except.ok.injEq] at h
          exact ⟨updateSurveyType st.surveys w.id "website", segs2, h.symm,
            Or.inr (Or.inl ⟨seg, rfl, hpriv, rfl, deleteSegment_ok _ _ _ hd⟩)⟩
      · simp only [] at h
        rw [if_neg hpriv] at h
        simp only [Except.map, Except.ok.injEq] at h
        exact ⟨disconnectSegment (updateSurveyType st.surveys w.id "website") w.id,
          st.segments, h.symm,
          Or.inr (Or.inr ⟨seg, rfl, Bool.of_not_eq_true hpriv, rfl, rfl⟩)⟩

/-- Frame property of one migration iteration: responses are untouched,
segments only shrink, and surveys with a different id keep their lookup
result. -/
theorem processWebSurvey_frame (st st2 : MState) (w : MSurvey) (g : Option MSegment)
    (tid : String) (hne : w.id ≠ tid)
    (h : processWebSurvey st w g = .ok st2) :
    st2.responses = st.responses
    ∧ (∀ z ∈ st2.segments, z ∈ st.segments)
    ∧ st2.surveys.find? (fun sv => sv.id == tid)
        = st.surveys.find? (fun sv => sv.id == tid) := by
  have hne2 : tid ≠ w.id := fun hh => hne hh.symm
  rcases processWebSurvey_cases st st2 w g h with ⟨hp, hst⟩ | ⟨hp, surveys2, segs2, hst, hcase⟩
  · subst hst
    exact ⟨rfl, fun z hz => hz, updateSurveyType_ne st.surveys w.id "app" tid hne2⟩
  · subst hst
    rcases hcase with ⟨hg, hs, hsegs⟩ | ⟨seg, hg, hpriv, hs, hsegs⟩ | ⟨seg, hg, hpriv, hs, hsegs⟩
    · subst hs
      subst hsegs
      exact ⟨rfl, fun z hz => deleteManyPrivateTitled_sub _ _ z hz,
        updateSurveyType_ne st.surveys w.id "website" tid hne2⟩
    · subst hs
      subst hsegs
      refine ⟨rfl, ?_, updateSurveyType_ne st.surveys w.id "website" tid hne2⟩
      intro z hz
      exact (List.mem_filter.mp (deleteManyPrivateTitled_sub _ _ z hz)).1
    · subst hs
      subst hsegs
      refine ⟨rfl, fun z hz => deleteManyPrivateTitled_sub _ _ z hz, ?_⟩
      rw [disconnectSegment_ne _ w.id tid hne2,
        updateSurveyType_ne st.surveys w.id "website" tid hne2]

/-- Effect of one migration iteration on its own snapshotted survey: a truthy
person reference on the latest response yields type app; otherwise type
website, a shared snapshot segment is disconnected, a private one is removed,
and no private segment titled with the survey id survives. -/
theorem processWebSurvey_self (st st2 : MState) (w x : MSurvey) (g : Option MSegment)
    (hfind : st.surveys.find? (fun sv => sv.id == w.id) = some x)
    (h : processWebSurvey st w g = .ok st2) :
    (truthyStr ((latestResponseFor st.responses w.id).bind
        (fun response => response.personId)) = true →
      ∃ y, st2.surveys.find? (fun sv => sv.id == w.id) = some y ∧ y.type = "app")
    ∧ (truthyStr ((latestResponseFor st.responses w.id).bind
        (fun response => response.personId)) = false →
      (∃ y, st2.surveys.find? (fun sv => sv.id == w.id) = some y ∧ y.type = "website"
        ∧ (∀ seg, g = some seg → seg.isPrivate = false → y.segmentId = none))
      ∧ (∀ seg, g = some seg → seg.isPrivate = true → ∀ z ∈ st2.segments, z.id ≠ seg.id)
      ∧ (∀ z ∈ st2.segments, z.title = w.id → z.isPrivate = false)) := by
  rcases processWebSurvey_cases st st2 w g h with ⟨hp, hst⟩ | ⟨hp, surveys2, segs2, hst, hcase⟩
  · subst hst
    constructor
    · intro _
      exact ⟨{ x with type := "app" }, updateSurveyType_eq st.surveys w.id "app" x hfind, rfl⟩
    · intro hfalse
      rw [hp] at hfalse
      exact absurd hfalse (by simp)
  · subst hst
    constructor
    · intro htrue
      rw [hp] at htrue
      exact absurd htrue (by simp)
    · intro _
      refine ⟨?_, ?_, ?_⟩
      · rcases hcase with ⟨hg, hs, hsegs⟩ | ⟨seg, hg, hpriv, hs, hsegs⟩ | ⟨seg, hg, hpriv, hs, hsegs⟩
        · subst hs
          subst hg
          exact ⟨{ x with type := "website" },
            updateSurveyType_eq st.surveys w.id "website" x hfind, rfl,
            fun seg hseg => nomatch hseg⟩
        · subst hs
          subst hg
          refine ⟨{ x with type := "website" },
            updateSurveyType_eq st.surveys w.id "website" x hfind, rfl, ?_⟩
          intro seg2 hseg2 hpriv2
          injection hseg2 with hseg2
          subst hseg2
          rw [hpriv] at hpriv2
          exact absurd hpriv2 (by simp)
        · subst hs
          subst hg
          refine ⟨{ x with type := "website", segmentId := none }, ?_, rfl, ?_⟩
          · exact disconnectSegment_eq _ w.id _
              (updateSurveyType_eq st.surveys w.id "website" x hfind)
          · intro seg2 hseg2 hpriv2
            rfl
      · intro seg2 hseg2 hpriv2
        rcases hcase with ⟨hg, hs, hsegs⟩ | ⟨seg, hg, hpriv, hs, hsegs⟩ | ⟨seg, hg, hpriv, hs, hsegs⟩
        · subst hg
          exact nomatch hseg2
        · subst hg
          injection hseg2 with hseg2
          subst hseg2
          subst hsegs
          intro z hz
          have hz2 := deleteManyPrivateTitled_sub _ _ z hz
          have hzf := (List.mem_filter.mp hz2).2
          simpa using hzf
        · subst hg
          injection hseg2 with hseg2
          subst hseg2
          rw [hpriv] at hpriv2
          exact absurd hpriv2 (by simp)
      · intro z hz htitle
        exact deleteManyPrivateTitled_spec _ _ z hz htitle

/-- Frame property lifted over a run of migration iterations whose snapshot
entries all concern other survey ids. -/
theorem migrateFold_frame (l : List (MSurvey × Option MSegment)) (st st2 : MState)
    (tid : String) (hne : ∀ e ∈ l, e.1.id ≠ tid)
    (h : l.foldlM (fun st entry => processWebSurvey st entry.1 entry.2) st = .ok st2) :
    st2.responses = st.responses
    ∧ (∀ z ∈ st2.segments, z ∈ st.segments)
    ∧ st2.surveys.find? (fun sv => sv.id == tid)
        = st.surveys.find? (fun sv => sv.id == tid) := by
  induction l generalizing st with
  | nil =>
    rw [List.foldlM_nil] at h
    have heq : st = st2 := Except.ok.inj (show Except.ok st = Except.ok st2 from h)
    subst heq
    exact ⟨rfl, fun z hz => hz, rfl⟩
  | cons e t ih =>
    rw [List.foldlM_cons] at h
    rcases hpe : processWebSurvey st e.1 e.2 with err | st1
    · rw [hpe] at h
      exact absurd (show Except.error err = Except.ok st2 from h) (by simp)
    · rw [hpe] at h
      have hstep := processWebSurvey_frame st st1 e.1 e.2 tid
        (hne e (List.mem_cons_self e t)) hpe
      have hrest := ih st1 (fun e2 he2 => hne e2 (List.mem_cons_of_mem e he2))
        (show t.foldlM (fun st entry => processWebSurvey st entry.1 entry.2) st1
          = .ok st2 from h)
      exact ⟨hrest.1.trans hstep.1,
        fun z hz => hstep.2.1 z (hrest.2.1 z hz),
        hrest.2.2.trans hstep.2.2⟩

/-- A successful migration fold over a concatenation splits into successful
folds over the parts. -/
theorem migrateFold_append (l1 l2 : List (MSurvey × Option MSegment)) (st st3 : MState)
    (h : (l1 ++ l2).foldlM (fun st entry => processWebSurvey st entry.1 entry.2) st
      = .ok st3) :
    ∃ stm, l1.foldlM (fun st entry => processWebSurvey st entry.1 entry.2) st = .ok stm
      ∧ l2.foldlM (fun st entry => processWebSurvey st entry.1 entry.2) stm = .ok st3 := by
  induction l1 generalizing st with
  | nil => exact ⟨st, rfl, h⟩
  | cons e t ih =>
    rw [List.cons_append, List.foldlM_cons] at h
    rcases hpe : processWebSurvey st e.1 e.2 with err | st1
    · rw [hpe] at h
      exact absurd (show Except.error err = Except.ok st3 from h) (by simp)
    · rw [hpe] at h
      obtain ⟨stm, h1, h2⟩ := ih st1
        (show (t ++ l2).foldlM (fun st entry => processWebSurvey st entry.1 entry.2) st1
          = .ok st3 from h)
      refine ⟨stm, ?_, h2⟩
      rw [List.foldlM_cons, hpe]
      exact h1

/-- Claim C7: for every survey of type web in the migrated store (with
distinct survey ids, on a successful run): when its latest response carries a
(truthy) person reference its type becomes app; otherwise its type becomes
website, its snapshotted connected segment is deleted when private and
disconnected when shared, and afterwards no private segment titled with the
survey id remains. -/
theorem claim_c7_migration (s s2 : MState) (sv : MSurvey)
    (hids : (s.surveys.map MSurvey.id).Nodup)
    (hrun : migrateWebSurveys s = .ok s2)
    (hmem : sv ∈ s.surveys) (hweb : sv.type = "web") :
    (truthyStr ((latestResponseFor s.responses sv.id).bind
        (fun response => response.personId)) = true →
      ∃ y, s2.surveys.find? (fun z => z.id == sv.id) = some y ∧ y.type = "app")
    ∧ (truthyStr ((latestResponseFor s.responses sv.id).bind
        (fun response => response.personId)) = false →
      (∃ y, s2.surveys.find? (fun z => z.id == sv.id) = some y ∧ y.type = "website"
        ∧ (∀ seg, sv.segmentId.bind (fun sid => findSegment s.segments sid) = some seg →
            seg.isPrivate = false → y.segmentId = none))
      ∧ (∀ seg, sv.segmentId.bind (fun sid => findSegment s.segments sid) = some seg →
          seg.isPrivate = true → ∀ z ∈ s2.segments, z.id ≠ seg.id)
      ∧ (∀ z ∈ s2.segments, z.title = sv.id → z.isPrivate = false)) := by
  have hmemF : sv ∈ s.surveys.filter (fun survey => survey.type == "web") :=
    List.mem_filter.mpr ⟨hmem, by simp [hweb]⟩
  have hsnap : (sv, sv.segmentId.bind (fun sid => findSegment s.segments sid))
      ∈ webSurveySnapshot s := by
    unfold webSurveySnapshot
    exact List.mem_map_of_mem _ hmemF
  obtain ⟨l1, l2, hsplit⟩ := List.append_of_mem hsnap
  have hsnodup : ((webSurveySnapshot s).map (fun e => e.1.id)).Nodup := by
    unfold webSurveySnapshot
    rw [List.map_map]
    exact List.Nodup.sublist ((List.filter_sublist s.surveys).map _) hids
  rw [hsplit, List.map_append, List.map_cons] at hsnodup
  have hmid := List.nodup_middle.mp hsnodup
  have hnm := (List.nodup_cons.mp hmid).1
  have hne1 : ∀ e ∈ l1, e.1.id ≠ sv.id := by
    intro e he heq
    exact hnm (List.mem_append.mpr (Or.inl (heq ▸ List.mem_map_of_mem (fun e => e.1.id) he)))
  have hne2 : ∀ e ∈ l2, e.1.id ≠ sv.id := by
    intro e he heq
    exact hnm (List.mem_append.mpr (Or.inr (heq ▸ List.mem_map_of_mem (fun e => e.1.id) he)))
  unfold migrateWebSurveys at hrun
  rw [hsplit] at hrun
  obtain ⟨stA, hA, hrest⟩ := migrateFold_append l1 _ s s2 hrun
  rw [List.foldlM_cons] at hrest
  rcases hmid2 : processWebSurvey stA sv
      (sv.segmentId.bind (fun sid => findSegment s.segments sid)) with err | stB
  · rw [hmid2] at hrest
    exact absurd (show Except.error err = Except.ok s2 from hrest) (by simp)
  · rw [hmid2] at hrest
    have hrest2 : l2.foldlM (fun st entry => processWebSurvey st entry.1 entry.2) stB
        = .ok s2 := hrest
    obtain ⟨hrespA, hsegA, hfindA⟩ := migrateFold_frame l1 s stA sv.id hne1 hA
    obtain ⟨hrespB, hsegB, hfindB⟩ := migrateFold_frame l2 stB s2 sv.id hne2 hrest2
    have hx : (s.surveys.find? (fun z => z.id == sv.id)).isSome :=
      List.find?_isSome.mpr ⟨sv, hmem, by simp⟩
    obtain ⟨x, hxfind⟩ := Option.isSome_iff_exists.mp hx
    have hxA : stA.surveys.find? (fun z => z.id == sv.id) = some x := by
      rw [hfindA, hxfind]
    have hself := processWebSurvey_self stA stB sv x _ hxA hmid2
    rw [hrespA] at hself
    constructor
    · intro htruthy
      obtain ⟨y, hy, hty⟩ := hself.1 htruthy
      exact ⟨y, by rw [hfindB]; exact hy, hty⟩
    · intro hfalsy
      obtain ⟨⟨y, hy, hty, hseg⟩, hdel, htitled⟩ := hself.2 hfalsy
      refine ⟨⟨y, by rw [hfindB]; exact hy, hty, hseg⟩, ?_, ?_⟩
      · intro seg hg hpriv z hz
        exact hdel seg hg hpriv z (hsegB z hz)
      · intro z hz htitle
        exact htitled z (hsegB z hz) htitle


/-- A one-survey store with a private segment and no responses, exercising
the website path of the migration. -/
def migrationStateEx : MState :=
  { surveys := [{ id := "s1", type := "web", segmentId := some "g1" }],
    segments := [{ id := "g1", title := "s1", isPrivate := true }],
    responses := [] }

/-- The store after migrating migrationStateEx. -/
def migrationResultEx : MState :=
  { surveys := [{ id := "s1", type := "website", segmentId := some "g1" }],
    segments := [], responses := [] }

/-- Claim C7 witness: migrating the concrete one-survey store turns the web
survey without responses into a website survey and leaves no private segment
titled with its id. -/
theorem claim_c7_witness :
    (∃ y, migrationResultEx.surveys.find? (fun z => z.id == "s1") = some y
      ∧ y.type = "website")
    ∧ (∀ z ∈ migrationResultEx.segments, z.title = "s1" → z.isPrivate = false) := by
  have h := (claim_c7_migration migrationStateEx migrationResultEx
    { id := "s1", type := "web", segmentId := some "g1" }
    (by decide) rfl (List.mem_singleton.mpr rfl) rfl).2 rfl
  obtain ⟨⟨y, hy, hty, hsegy⟩, hdel, htitled⟩ := h
  exact ⟨⟨y, hy, hty⟩, htitled⟩

end Formbricks
